import Mathlib

/-!
Verification of the machining-parameter optimizer in `machine_opt.py`.

The source computes with IEEE floats and numpy arrays; we embed it over an
arbitrary linear ordered field `α` (instantiated at `ℚ` for concrete
evaluations), passing the transcendental primitives `asin` (numpy's
`np.arcsin`) and `pi` (`np.pi`) as parameters, since their real-number
counterparts are noncomputable in Lean.  Flows that raise a Python
exception are modelled as `Option.none`.
-/

namespace MachineOpt

variable {α : Type} [LinearOrderedField α]

/-- `Material` dataclass: ultimate tensile strength in N/mm². -/
structure Material (α : Type) where
  ultimate_tensile_strength : α

/-- `Tool` dataclass.  The source defaults are `tool_wear_factor = 1.1` and
`machine_efficancy = 0.8` (sic); we keep the fields explicit. -/
structure Tool (α : Type) where
  tool_diameter : α
  number_of_flutes : ℕ
  tool_wear_factor : α
  machine_efficancy : α

/-- `OptimizerSettings` dataclass, fields in source order (note that
`max_feed_per_tooth` precedes `min_feed_per_tooth` in the source). -/
structure OptimizerSettings (α : Type) where
  min_axial_doc : α
  max_axial_doc : α
  min_radial_doc : α
  max_radial_doc : α
  max_feed_per_tooth : α
  min_feed_per_tooth : α
  min_chip_cross_sectional_area : α
  max_spindle_power : α
  max_cutting_force : α

/-- `np.arange(start, stop, step)` over exact arithmetic: the samples
`start + i * step` for `i < max 0 ⌈(stop - start) / step⌉`.  A zero step
raises `ZeroDivisionError` in numpy, modelled as `none`. -/
def arange [FloorRing α] (start stop step : α) : Option (List α) :=
  if step = 0 then none
  else some ((List.range (⌈(stop - start) / step⌉).toNat).map
    (fun i : ℕ => start + (i : α) * step))

/-- The `axial_doc` property of `OptimizerSettings`:
`np.arange(min_axial_doc, max_axial_doc, (max_axial_doc - min_axial_doc)/100)`
(the `[:, None, None]` broadcast places it on grid axis 0). -/
def OptimizerSettings.axial_doc [FloorRing α] (s : OptimizerSettings α) :
    Option (List α) :=
  arange s.min_axial_doc s.max_axial_doc ((s.max_axial_doc - s.min_axial_doc) / 100)

/-- The `radial_doc` property (grid axis 1). -/
def OptimizerSettings.radial_doc [FloorRing α] (s : OptimizerSettings α) :
    Option (List α) :=
  arange s.min_radial_doc s.max_radial_doc ((s.max_radial_doc - s.min_radial_doc) / 100)

/-- The `feed_per_tooth` property (grid axis 2). -/
def OptimizerSettings.feed_per_tooth [FloorRing α] (s : OptimizerSettings α) :
    Option (List α) :=
  arange s.min_feed_per_tooth s.max_feed_per_tooth
    ((s.max_feed_per_tooth - s.min_feed_per_tooth) / 100)

/-- A scalar `Recipe`: one concrete set of cut parameters. -/
structure Recipe (α : Type) where
  tool : Tool α
  feed_per_tooth : α
  surface_speed : α
  radial_doc : α
  axial_doc : α

/-- `Recipe.rpm`: `1000 * surface_speed / (np.pi * tool_diameter)`. -/
def Recipe.rpm (pi : α) (r : Recipe α) : α :=
  1000 * r.surface_speed / (pi * r.tool.tool_diameter)

/-- `Recipe.feed_rate`: `feed_per_tooth * rpm * number_of_flutes`. -/
def Recipe.feed_rate (pi : α) (r : Recipe α) : α :=
  r.feed_per_tooth * r.rpm pi * (r.tool.number_of_flutes : α)

/-- `Recipe.mrr`: `feed_rate * axial_doc * radial_doc / 1000`. -/
def Recipe.mrr (pi : α) (r : Recipe α) : α :=
  r.feed_rate pi * r.axial_doc * r.radial_doc / 1000

/-- `Recipe.chip_cross_sectional_area`: `axial_doc * feed_per_tooth`. -/
def Recipe.chip_cross_sectional_area (r : Recipe α) : α :=
  r.axial_doc * r.feed_per_tooth

/-- Scalar body of `Optimizer.avg_engaged_flutes`:
`flutes * (np.arcsin((2*rdoc - dia)/dia) + np.arcsin(1)) / 2 / np.pi`. -/
def avg_engaged_flutes (asin : α → α) (pi flutes dia rdoc : α) : α :=
  flutes * (asin ((2 * rdoc - dia) / dia) + asin 1) / 2 / pi

/-- The swept candidate set: the source's `Recipe` whose `feed_per_tooth`,
`radial_doc` and `axial_doc` fields hold the broadcast axis arrays. -/
structure RecipeGrid (α : Type) where
  tool : Tool α
  feed_per_tooth : List α
  surface_speed : α
  radial_doc : List α
  axial_doc : List α

/-- The `Optimizer` dataclass. -/
structure Optimizer (α : Type) where
  material : Material α
  recipe : RecipeGrid α
  settings : OptimizerSettings α

/-- The `Optimizer.tool` property. -/
def Optimizer.tool (o : Optimizer α) : Tool α := o.recipe.tool

/-- Row-major (axial, radial, feed) enumeration of the grid indices, the
flattening order used by `np.argmax` / `np.unravel_index` on a C-ordered
array of shape `(A, R, F)`. -/
def gridIdx (A R F : ℕ) : List (ℕ × ℕ × ℕ) :=
  (List.range A).flatMap fun i =>
    (List.range R).flatMap fun j =>
      (List.range F).map fun k => (i, j, k)

/-- Grid indices of an optimizer's swept recipe. -/
def Optimizer.gridPoints (o : Optimizer α) : List (ℕ × ℕ × ℕ) :=
  gridIdx o.recipe.axial_doc.length o.recipe.radial_doc.length
    o.recipe.feed_per_tooth.length

/-- Element `(i,j,k)` of the broadcast `rpm` array (a scalar: it does not
depend on the swept axes). -/
def Optimizer.grid_rpm (pi : α) (o : Optimizer α) : α :=
  1000 * o.recipe.surface_speed / (pi * o.recipe.tool.tool_diameter)

/-- Element at feed index `k` of the broadcast `feed_rate` array. -/
def Optimizer.grid_feed_rate (pi : α) (o : Optimizer α) (k : ℕ) : α :=
  o.recipe.feed_per_tooth.getD k 0 * o.grid_rpm pi *
    (o.recipe.tool.number_of_flutes : α)

/-- Element `(i,j,k)` of the broadcast `mrr` array. -/
def Optimizer.grid_mrr (pi : α) (o : Optimizer α) (p : ℕ × ℕ × ℕ) : α :=
  o.grid_feed_rate pi p.2.2 * o.recipe.axial_doc.getD p.1 0 *
    o.recipe.radial_doc.getD p.2.1 0 / 1000

/-- Element `(i,k)` of the broadcast `chip_cross_sectional_area` array. -/
def Optimizer.grid_chip_area (o : Optimizer α) (p : ℕ × ℕ × ℕ) : α :=
  o.recipe.axial_doc.getD p.1 0 * o.recipe.feed_per_tooth.getD p.2.2 0

/-- Element at radial index `j` of the broadcast `avg_engaged_flutes`
array. -/
def Optimizer.grid_engaged_flutes (asin : α → α) (pi : α) (o : Optimizer α)
    (j : ℕ) : α :=
  (o.recipe.tool.number_of_flutes : α) *
    (asin ((2 * o.recipe.radial_doc.getD j 0 - o.recipe.tool.tool_diameter) /
        o.recipe.tool.tool_diameter) + asin 1) / 2 / pi

/-- Element `(i,j,k)` of the broadcast `cutting_force` array:
`sigma * avg_engaged_flutes * wear * chip_cross_sectional_area`. -/
def Optimizer.cutting_force_at (asin : α → α) (pi : α) (o : Optimizer α)
    (p : ℕ × ℕ × ℕ) : α :=
  o.material.ultimate_tensile_strength * o.grid_engaged_flutes asin pi p.2.1 *
    o.recipe.tool.tool_wear_factor * o.grid_chip_area p

/-- A grid candidate is valid when its cutting force does not exceed
`max_cutting_force` (it is masked out exactly when `force > max`). -/
def Optimizer.validAt (asin : α → α) (pi : α) (o : Optimizer α)
    (p : ℕ × ℕ × ℕ) : Prop :=
  o.cutting_force_at asin pi p ≤ o.settings.max_cutting_force

/-- The `Optimizer.score` property: the masked array
`ma.masked_array(mrr, mask = force > max_cutting_force)`, flattened in
row-major order and keeping each entry's grid index. -/
def Optimizer.score (asin : α → α) (pi : α) (o : Optimizer α) :
    List ((ℕ × ℕ × ℕ) × α × Bool) :=
  o.gridPoints.map fun p =>
    (p, o.grid_mrr pi p,
      decide (o.settings.max_cutting_force < o.cutting_force_at asin pi p))

/-- First maximum of a masked value list (`Bool` is the mask flag):
`np.argmax` on a masked array fills masked entries with the minimum fill
value, so it returns the first index attaining the maximum over the
unmasked entries, and index 0 when everything is masked.  Returns the
winning index paired with its value, `none` when all entries are masked. -/
def bestMA : List (α × Bool) → Option (ℕ × α)
  | [] => none
  | (v, m) :: rest =>
    match bestMA rest with
    | none => if m then none else some (0, v)
    | some (bi, bv) =>
      if m then some (bi + 1, bv)
      else if v < bv then some (bi + 1, bv) else some (0, v)

/-- `np.argmax` on a masked array: index of `bestMA`, 0 when fully
masked. -/
def argmaxMA (l : List (α × Bool)) : ℕ :=
  match bestMA l with
  | none => 0
  | some (bi, _) => bi

/-- Lines 169-174 of the source: `np.argmax` over the flattened score plus
`np.unravel_index`, yielding the winning `(axial, radial, feed)` index.
`np.argmax` of an empty array raises `ValueError`, modelled as `none`. -/
def Optimizer.best_idx (asin : α → α) (pi : α) (o : Optimizer α) :
    Option (ℕ × ℕ × ℕ) :=
  let sc := o.score asin pi
  if sc.isEmpty then none
  else some ((sc.map Prod.fst).getD (argmaxMA (sc.map fun x => x.2)) (0, 0, 0))

/-- Reconstruction of the scalar `Recipe` from a winning grid index
(lines 175-178 of the source). -/
def Optimizer.recipeAt (o : Optimizer α) (i j k : ℕ) : Recipe α :=
  { tool := o.recipe.tool
    feed_per_tooth := o.recipe.feed_per_tooth.getD k 0
    surface_speed := o.recipe.surface_speed
    radial_doc := o.recipe.radial_doc.getD j 0
    axial_doc := o.recipe.axial_doc.getD i 0 }

/-- `Optimizer.compute_best`: constrained argmax followed by recipe
reconstruction.  The `print_recipe` call only prints and is dropped. -/
def Optimizer.compute_best (asin : α → α) (pi : α) (o : Optimizer α) :
    Option (Recipe α) :=
  (o.best_idx asin pi).map fun p => o.recipeAt p.1 p.2.1 p.2.2

/-- The script's construction of the swept `Recipe` from the settings
properties (lines 206-213): fails when an axis raises. -/
def buildOptimizer [FloorRing α] (m : Material α) (t : Tool α) (ss : α)
    (s : OptimizerSettings α) : Option (Optimizer α) :=
  match s.axial_doc, s.radial_doc, s.feed_per_tooth with
  | some axs, some rds, some fps =>
      some { material := m
             recipe := { tool := t, feed_per_tooth := fps, surface_speed := ss,
                         radial_doc := rds, axial_doc := axs }
             settings := s }
  | _, _, _ => none

/-- Replace only the force limit of a settings record. -/
def OptimizerSettings.withForce (s : OptimizerSettings α) (F : α) :
    OptimizerSettings α :=
  { s with max_cutting_force := F }

/-- Replace only the force limit of an optimizer. -/
def Optimizer.withForce (o : Optimizer α) (F : α) : Optimizer α :=
  { o with settings := o.settings.withForce F }

/-- numpy's `np.arcsin`: NaN (here `none`) outside `[-1, 1]`, the library
`asin` inside.  No exception is raised either way. -/
def numpy_arcsin (asin : α → α) (x : α) : Option α :=
  if -1 ≤ x ∧ x ≤ 1 then some (asin x) else none

/-- `Optimizer.avg_engaged_flutes` with numpy's NaN semantics made
explicit: a NaN produced by `np.arcsin` propagates through the remaining
arithmetic. -/
def avg_engaged_flutes_nan (asin : α → α) (pi flutes dia rdoc : α) :
    Option α :=
  match numpy_arcsin asin ((2 * rdoc - dia) / dia), numpy_arcsin asin 1 with
  | some a, some b => some (flutes * (a + b) / 2 / pi)
  | _, _ => none

/-- State-threaded reading of `Optimizer.score`: the property only reads
`self`, so it returns the optimizer it was called on. -/
def Optimizer.score_run (asin : α → α) (pi : α) (o : Optimizer α) :
    List ((ℕ × ℕ × ℕ) × α × Bool) × Optimizer α :=
  (o.score asin pi, o)

/-- State-threaded `compute_best`: every step of the method body reads
fields of `self` and assigns only local variables, so the post-state is
threaded through unchanged and the output `Recipe` is freshly
constructed. -/
def Optimizer.compute_best_run (asin : α → α) (pi : α) (o : Optimizer α) :
    Option (Recipe α) × Optimizer α :=
  let sr := o.score_run asin pi
  let sc := sr.1
  let o1 := sr.2
  if sc.isEmpty then (none, o1)
  else
    let n := argmaxMA (sc.map fun x => x.2)
    let p := (sc.map Prod.fst).getD n (0, 0, 0)
    (some (o1.recipeAt p.1 p.2.1 p.2.2), o1)

/-- The property claimed of a generated axis: exactly 100 samples, each in
the half-open interval, strictly increasing, consecutive samples spaced by
`(hi - lo) / 100`. -/
def axisSpec (lo hi : α) (L : List α) : Prop :=
  L.length = 100 ∧
  (∀ i (h : i < L.length), lo ≤ L.get ⟨i, h⟩ ∧ L.get ⟨i, h⟩ < hi) ∧
  (∀ i j (h1 : i < L.length) (h2 : j < L.length), i < j →
    L.get ⟨i, h1⟩ < L.get ⟨j, h2⟩) ∧
  (∀ i (h1 : i < L.length) (h2 : i + 1 < L.length),
    L.get ⟨i + 1, h2⟩ - L.get ⟨i, h1⟩ = (hi - lo) / 100)

/-! ### Lemmas about the masked argmax -/

theorem bestMA_none_of_all {l : List (α × Bool)}
    (hall : ∀ x ∈ l, x.2 = true) : bestMA l = none := by
  induction l with
  | nil => simp [bestMA]
  | cons x rest ih =>
    obtain ⟨v, m⟩ := x
    have hm : m = true := hall (v, m) (by simp)
    subst hm
    have hrest : bestMA rest = none := ih fun y hy => hall y (by simp [hy])
    simp [bestMA, hrest]

theorem bestMA_all_of_none {l : List (α × Bool)}
    (h : bestMA l = none) : ∀ x ∈ l, x.2 = true := by
  induction l with
  | nil => simp
  | cons x rest ih =>
    obtain ⟨v, m⟩ := x
    simp only [bestMA] at h
    cases hrest : bestMA rest with
    | none =>
      rw [hrest] at h
      cases m with
      | true =>
        intro y hy
        rcases List.mem_cons.mp hy with hy | hy
        · simp [hy]
        · exact ih hrest y hy
      | false => simp at h
    | some bb =>
      obtain ⟨bi, bv⟩ := bb
      rw [hrest] at h
      cases m with
      | true => simp at h
      | false => by_cases hv : v < bv <;> simp [hv] at h

theorem bestMA_eq_none_iff {l : List (α × Bool)} :
    bestMA l = none ↔ ∀ x ∈ l, x.2 = true :=
  ⟨bestMA_all_of_none, bestMA_none_of_all⟩

theorem bestMA_getElem {l : List (α × Bool)} {i : ℕ} {v : α}
    (h : bestMA l = some (i, v)) : l[i]? = some (v, false) := by
  induction l generalizing i v with
  | nil => simp [bestMA] at h
  | cons x rest ih =>
    obtain ⟨w, m⟩ := x
    simp only [bestMA] at h
    cases hrest : bestMA rest with
    | none =>
      rw [hrest] at h
      cases m with
      | true => simp at h
      | false =>
        simp at h
        obtain ⟨hi, hv⟩ := h
        subst hi; subst hv
        simp
    | some bb =>
      obtain ⟨bi, bv⟩ := bb
      rw [hrest] at h
      cases m with
      | true =>
        simp at h
        obtain ⟨hi, hv⟩ := h
        subst hi; subst hv
        simpa using ih hrest
      | false =>
        by_cases hw : w < bv
        · simp [hw] at h
          obtain ⟨hi, hv⟩ := h
          subst hi; subst hv
          simpa using ih hrest
        · simp [hw] at h
          obtain ⟨hi, hv⟩ := h
          subst hi; subst hv
          simp

theorem bestMA_le {l : List (α × Bool)} {i : ℕ} {v : α}
    (h : bestMA l = some (i, v)) :
    ∀ (j : ℕ) (w : α), l[j]? = some (w, false) → w ≤ v := by
  induction l generalizing i v with
  | nil => intro j w hj; simp at hj
  | cons x rest ih =>
    obtain ⟨u, m⟩ := x
    intro j w hj
    simp only [bestMA] at h
    cases hrest : bestMA rest with
    | none =>
      rw [hrest] at h
      cases m with
      | true => simp at h
      | false =>
        simp at h
        obtain ⟨hi, hv⟩ := h
        subst hv
        cases j with
        | zero => simp at hj; simp [hj]
        | succ j' =>
          simp at hj
          have hmem := bestMA_eq_none_iff.mp hrest _ (List.getElem?_mem hj)
          simp at hmem
    | some bb =>
      obtain ⟨bi, bv⟩ := bb
      rw [hrest] at h
      have hrle : ∀ j w, rest[j]? = some (w, false) → w ≤ bv := ih hrest
      cases m with
      | true =>
        simp at h
        obtain ⟨hi, hv⟩ := h
        subst hv
        cases j with
        | zero => simp at hj
        | succ j' => simp at hj; exact hrle _ _ hj
      | false =>
        by_cases hu : u < bv
        · simp [hu] at h
          obtain ⟨hi, hv⟩ := h
          subst hv
          cases j with
          | zero =>
            simp at hj
            exact hj ▸ le_of_lt hu
          | succ j' => simp at hj; exact hrle _ _ hj
        · simp [hu] at h
          obtain ⟨hi, hv⟩ := h
          subst hv
          cases j with
          | zero => simp at hj; simp [hj]
          | succ j' =>
            simp at hj
            exact le_trans (hrle _ _ hj) (not_lt.mp hu)

theorem bestMA_first {l : List (α × Bool)} {i : ℕ} {v : α}
    (h : bestMA l = some (i, v)) :
    ∀ (j : ℕ) (w : α), j < i → l[j]? = some (w, false) → w < v := by
  induction l generalizing i v with
  | nil => intro j w hji hj; simp at hj
  | cons x rest ih =>
    obtain ⟨u, m⟩ := x
    intro j w hji hj
    simp only [bestMA] at h
    cases hrest : bestMA rest with
    | none =>
      rw [hrest] at h
      cases m with
      | true => simp at h
      | false =>
        simp at h
        obtain ⟨hi, hv⟩ := h
        omega
    | some bb =>
      obtain ⟨bi, bv⟩ := bb
      rw [hrest] at h
      cases m with
      | true =>
        simp at h
        obtain ⟨hi, hv⟩ := h
        subst hi; subst hv
        cases j with
        | zero => simp at hj
        | succ j' =>
          simp at hj
          exact ih hrest _ _ (by omega) hj
      | false =>
        by_cases hu : u < bv
        · simp [hu] at h
          obtain ⟨hi, hv⟩ := h
          subst hi; subst hv
          cases j with
          | zero => simp at hj; simpa [hj] using hu
          | succ j' => simp at hj; exact ih hrest _ _ (by omega) hj
        · simp [hu] at h
          obtain ⟨hi, hv⟩ := h
          omega

theorem bestMA_ne_none {l : List (α × Bool)} {j : ℕ} {w : α}
    (hj : l[j]? = some (w, false)) : bestMA l ≠ none := by
  intro h
  have hm := bestMA_eq_none_iff.mp h _ (List.getElem?_mem hj)
  simp at hm

theorem bestMA_lt_length {l : List (α × Bool)} {i : ℕ} {v : α}
    (h : bestMA l = some (i, v)) : i < l.length :=
  (List.getElem?_eq_some_iff.mp (bestMA_getElem h)).1

theorem bestMA_cons (v : α) (m : Bool) (l : List (α × Bool)) :
    bestMA ((v, m) :: l) =
      match bestMA l with
      | none => if m then none else some (0, v)
      | some (bi, bv) =>
        if m then some (bi + 1, bv)
        else if v < bv then some (bi + 1, bv) else some (0, v) := rfl

theorem bestMA_const {β : Type} (v : α) {l : List β} (h : l ≠ []) :
    bestMA (l.map fun _ => (v, false)) = some (0, v) := by
  induction l with
  | nil => simp at h
  | cons x rest ih =>
    cases rest with
    | nil => simp [bestMA]
    | cons y tl =>
      have h2 := ih (by simp)
      rw [List.map_cons, bestMA_cons, h2]
      simp

/-! ### Lemmas about the index grid -/

theorem mem_gridIdx {A R F : ℕ} {p : ℕ × ℕ × ℕ} :
    p ∈ gridIdx A R F ↔ p.1 < A ∧ p.2.1 < R ∧ p.2.2 < F := by
  obtain ⟨i, j, k⟩ := p
  simp only [gridIdx, List.mem_flatMap, List.mem_map, List.mem_range,
    Prod.mk.injEq]
  constructor
  · rintro ⟨i', hi', j', hj', k', hk', rfl, rfl, rfl⟩
    exact ⟨hi', hj', hk'⟩
  · rintro ⟨hi, hj, hk⟩
    exact ⟨i, hi, j, hj, k, hk, rfl, rfl, rfl⟩

theorem gridIdx_head (a r f : ℕ) :
    ∃ tl, gridIdx (a + 1) (r + 1) (f + 1) = (0, 0, 0) :: tl := by
  simp only [gridIdx, List.range_succ_eq_map, List.flatMap_cons, List.map_cons,
    List.cons_append]
  exact ⟨_, rfl⟩

theorem gridIdx_getElem_zero {A R F : ℕ} (hA : 0 < A) (hR : 0 < R)
    (hF : 0 < F) : (gridIdx A R F)[0]? = some (0, 0, 0) := by
  obtain ⟨a, rfl⟩ : ∃ a, A = a + 1 := ⟨A - 1, by omega⟩
  obtain ⟨r, rfl⟩ : ∃ r, R = r + 1 := ⟨R - 1, by omega⟩
  obtain ⟨f, rfl⟩ : ∃ f, F = f + 1 := ⟨F - 1, by omega⟩
  obtain ⟨tl, htl⟩ := gridIdx_head a r f
  rw [htl]
  simp

theorem gridIdx_ne_nil {A R F : ℕ} (hA : 0 < A) (hR : 0 < R) (hF : 0 < F) :
    gridIdx A R F ≠ [] := by
  intro h
  have := gridIdx_getElem_zero hA hR hF
  rw [h] at this
  simp at this

/-! ### Lemmas about the generated axes -/

theorem arange_eq [FloorRing α] (start stop step : α) (h : step ≠ 0) :
    arange start stop step =
      some ((List.range (⌈(stop - start) / step⌉).toNat).map
        (fun i : ℕ => start + (i : α) * step)) := by
  simp [arange, h]

theorem arange_div100 [FloorRing α] {lo hi : α} (h : hi ≠ lo) :
    arange lo hi ((hi - lo) / 100) =
      some ((List.range 100).map (fun i : ℕ => lo + (i : α) * ((hi - lo) / 100))) := by
  have hsub : hi - lo ≠ 0 := sub_ne_zero.mpr h
  have hstep : (hi - lo) / 100 ≠ 0 := div_ne_zero hsub (by norm_num)
  rw [arange_eq _ _ _ hstep]
  have hq : (hi - lo) / ((hi - lo) / 100) = (100 : α) := by field_simp
  rw [hq]
  simp [Int.ceil_ofNat]

theorem arange_axisSpec [FloorRing α] {lo hi : α} (h : lo < hi) :
    ∃ L, arange lo hi ((hi - lo) / 100) = some L ∧ axisSpec lo hi L := by
  refine ⟨_, arange_div100 (ne_of_gt h), ?_⟩
  have hstep : 0 < (hi - lo) / 100 := div_pos (sub_pos.mpr h) (by norm_num)
  have h100 : (100 : α) * ((hi - lo) / 100) = hi - lo := by field_simp
  have helem : ∀ i (h2 : i <
      ((List.range 100).map (fun i : ℕ => lo + (i : α) * ((hi - lo) / 100))).length),
      ((List.range 100).map (fun i : ℕ => lo + (i : α) * ((hi - lo) / 100))).get ⟨i, h2⟩
        = lo + (i : α) * ((hi - lo) / 100) := by
    intro i h2
    simp only [List.get_eq_getElem, List.getElem_map, List.getElem_range]
  refine ⟨by simp only [List.length_map, List.length_range], ?_, ?_, ?_⟩
  · intro i h1
    rw [helem i h1]
    have hi100 : i < 100 := by
      simpa only [List.length_map, List.length_range] using h1
    have hcast : (i : α) < 100 := by exact_mod_cast hi100
    constructor
    · have := mul_nonneg (Nat.cast_nonneg (α := α) i) hstep.le
      linarith
    · have := mul_lt_mul_of_pos_right hcast hstep
      linarith
  · intro i j h1 h2 hij
    rw [helem i h1, helem j h2]
    have hcast : (i : α) < (j : α) := by exact_mod_cast hij
    have := mul_lt_mul_of_pos_right hcast hstep
    linarith
  · intro i h1 h2
    rw [helem i h1, helem (i + 1) h2]
    push_cast
    ring

/-! ### The constrained argmax, assembled -/

theorem score_map_snd (asin : α → α) (pi : α) (o : Optimizer α) :
    (o.score asin pi).map (fun x => x.2) = o.gridPoints.map (fun p =>
      (o.grid_mrr pi p,
        decide (o.settings.max_cutting_force < o.cutting_force_at asin pi p))) := by
  rw [Optimizer.score, List.map_map]
  rfl

theorem score_map_fst (asin : α → α) (pi : α) (o : Optimizer α) :
    (o.score asin pi).map Prod.fst = o.gridPoints := by
  rw [Optimizer.score, List.map_map]
  exact List.map_id _

theorem best_idx_spec (asin : α → α) (pi : α) (o : Optimizer α)
    (hfeas : ∃ p ∈ o.gridPoints, o.validAt asin pi p) :
    ∃ n p, o.gridPoints[n]? = some p ∧
      o.best_idx asin pi = some p ∧
      o.validAt asin pi p ∧
      (∀ q ∈ o.gridPoints, o.validAt asin pi q →
        o.grid_mrr pi q ≤ o.grid_mrr pi p) ∧
      (∀ (m : ℕ) (q : ℕ × ℕ × ℕ), m < n → o.gridPoints[m]? = some q →
        o.validAt asin pi q → o.grid_mrr pi q < o.grid_mrr pi p) := by
  obtain ⟨p0, hp0mem, hp0val⟩ := hfeas
  obtain ⟨n0, hn0⟩ := List.getElem?_of_mem hp0mem
  have hmem_msk : ∀ (m : ℕ) (q : ℕ × ℕ × ℕ), o.gridPoints[m]? = some q →
      o.validAt asin pi q →
      ((o.score asin pi).map (fun x => x.2))[m]? = some (o.grid_mrr pi q, false) := by
    intro m q hm hv
    rw [score_map_snd, List.getElem?_map, hm]
    have hd : decide (o.settings.max_cutting_force <
        o.cutting_force_at asin pi q) = false := decide_eq_false (not_lt.mpr hv)
    simp [hd]
  have hmn0 := hmem_msk n0 p0 hn0 hp0val
  obtain ⟨⟨n, v⟩, hbest⟩ :=
    Option.ne_none_iff_exists'.mp (bestMA_ne_none hmn0)
  have hgot := bestMA_getElem hbest
  rw [score_map_snd, List.getElem?_map] at hgot
  cases hgp : o.gridPoints[n]? with
  | none => rw [hgp] at hgot; simp at hgot
  | some p =>
    rw [hgp] at hgot
    simp only [Option.map_some'] at hgot
    have hpair := Option.some.inj hgot
    have hv : o.grid_mrr pi p = v := congrArg Prod.fst hpair
    have hd : decide (o.settings.max_cutting_force <
        o.cutting_force_at asin pi p) = false := congrArg Prod.snd hpair
    have hpval : o.validAt asin pi p := not_lt.mp (of_decide_eq_false hd)
    have hscempty : (o.score asin pi).isEmpty = false := by
      rw [List.isEmpty_eq_false]
      intro hsc
      have : o.gridPoints = [] := by
        have := score_map_fst asin pi o
        rw [hsc] at this
        simpa using this.symm
      rw [this] at hp0mem
      simp at hp0mem
    have hargmax : argmaxMA ((o.score asin pi).map fun x => x.2) = n := by
      rw [argmaxMA, hbest]
    have hbidx : o.best_idx asin pi = some p := by
      rw [Optimizer.best_idx]
      simp only [hscempty, Bool.false_eq_true, if_false]
      rw [hargmax, score_map_fst]
      rw [List.getD_eq_getElem?_getD, hgp]
      rfl
    refine ⟨n, p, hgp, hbidx, hpval, ?_, ?_⟩
    · intro q hq hqval
      obtain ⟨m, hm⟩ := List.getElem?_of_mem hq
      have := bestMA_le hbest m _ (hmem_msk m q hm hqval)
      exact hv ▸ this
    · intro m q hmn hm hqval
      have := bestMA_first hbest m _ hmn (hmem_msk m q hm hqval)
      exact hv ▸ this

theorem score_isEmpty_false (asin : α → α) (pi : α) (o : Optimizer α)
    (hnil : o.gridPoints ≠ []) : (o.score asin pi).isEmpty = false := by
  rw [List.isEmpty_eq_false]
  intro hsc
  apply hnil
  have hfst := score_map_fst asin pi o
  rw [hsc] at hfst
  simpa using hfst.symm

theorem best_idx_all_masked (asin : α → α) (pi : α) (o : Optimizer α)
    (hA : 0 < o.recipe.axial_doc.length) (hR : 0 < o.recipe.radial_doc.length)
    (hF : 0 < o.recipe.feed_per_tooth.length)
    (hall : ∀ p ∈ o.gridPoints, ¬ o.validAt asin pi p) :
    o.best_idx asin pi = some (0, 0, 0) := by
  have hnil : o.gridPoints ≠ [] := gridIdx_ne_nil hA hR hF
  have hnone : bestMA ((o.score asin pi).map fun x => x.2) = none := by
    apply bestMA_none_of_all
    intro x hx
    rw [score_map_snd] at hx
    obtain ⟨p, hp, rfl⟩ := List.mem_map.mp hx
    exact decide_eq_true (not_le.mp fun hle => hall p hp hle)
  have h0 : o.gridPoints[0]? = some (0, 0, 0) := by
    rw [Optimizer.gridPoints]
    exact gridIdx_getElem_zero hA hR hF
  rw [Optimizer.best_idx]
  simp only [score_isEmpty_false asin pi o hnil, Bool.false_eq_true, if_false]
  rw [argmaxMA, hnone, score_map_fst, List.getD_eq_getElem?_getD, h0]
  rfl

theorem best_idx_mem (asin : α → α) (pi : α) (o : Optimizer α)
    (hA : 0 < o.recipe.axial_doc.length) (hR : 0 < o.recipe.radial_doc.length)
    (hF : 0 < o.recipe.feed_per_tooth.length) :
    ∃ p, o.best_idx asin pi = some p ∧ p ∈ o.gridPoints := by
  have hnil : o.gridPoints ≠ [] := gridIdx_ne_nil hA hR hF
  have hempty := score_isEmpty_false asin pi o hnil
  cases hb : bestMA ((o.score asin pi).map fun x => x.2) with
  | none =>
    have h0 : o.gridPoints[0]? = some (0, 0, 0) := by
      rw [Optimizer.gridPoints]
      exact gridIdx_getElem_zero hA hR hF
    refine ⟨(0, 0, 0), ?_, List.getElem?_mem h0⟩
    rw [Optimizer.best_idx]
    simp only [hempty, Bool.false_eq_true, if_false]
    rw [argmaxMA, hb, score_map_fst, List.getD_eq_getElem?_getD, h0]
    rfl
  | some nv =>
    obtain ⟨n, v⟩ := nv
    have hgot := bestMA_getElem hb
    rw [score_map_snd, List.getElem?_map] at hgot
    cases hgp : o.gridPoints[n]? with
    | none => rw [hgp] at hgot; simp at hgot
    | some p =>
      refine ⟨p, ?_, List.getElem?_mem hgp⟩
      rw [Optimizer.best_idx]
      simp only [hempty, Bool.false_eq_true, if_false]
      rw [argmaxMA, hb, score_map_fst, List.getD_eq_getElem?_getD, hgp]
      rfl

instance decValidAt (asin : α → α) (pi : α) (o : Optimizer α)
    (p : ℕ × ℕ × ℕ) : Decidable (o.validAt asin pi p) :=
  inferInstanceAs
    (Decidable (o.cutting_force_at asin pi p ≤ o.settings.max_cutting_force))

/-! ### Claim C1 -/

/-- Claim C1: for every material, swept candidate recipe and settings such
that some candidate meets the force constraint, the search computes force
and removal rate on the whole grid, keeps exactly the candidates with
`cutting_force ≤ max_cutting_force` (equality at the limit stays valid),
and returns the grid index maximizing material removal rate among the
valid candidates, ties broken by the first index in row-major
(axial, radial, feed) order. -/
theorem C1_constrained_argmax (asin : α → α) (pi : α) (o : Optimizer α)
    (hfeas : ∃ p ∈ o.gridPoints, o.validAt asin pi p) :
    ∃ n p, o.gridPoints[n]? = some p ∧
      o.best_idx asin pi = some p ∧
      o.compute_best asin pi = some (o.recipeAt p.1 p.2.1 p.2.2) ∧
      o.validAt asin pi p ∧
      (∀ q ∈ o.gridPoints, o.validAt asin pi q →
        o.grid_mrr pi q ≤ o.grid_mrr pi p) ∧
      (∀ (m : ℕ) (q : ℕ × ℕ × ℕ), m < n → o.gridPoints[m]? = some q →
        o.validAt asin pi q → o.grid_mrr pi q < o.grid_mrr pi p) := by
  obtain ⟨n, p, h1, h2, h3, h4, h5⟩ := best_idx_spec asin pi o hfeas
  refine ⟨n, p, h1, h2, ?_, h3, h4, h5⟩
  rw [Optimizer.compute_best, h2]
  rfl

/-- Concrete optimizer for the C1 witness: one grid point whose cutting
force equals the limit exactly, so it stays valid. -/
def ex1 : Optimizer ℚ :=
  { material := { ultimate_tensile_strength := 6 }
    recipe := { tool := { tool_diameter := 2, number_of_flutes := 1,
                          tool_wear_factor := 1, machine_efficancy := 1 }
                feed_per_tooth := [1], surface_speed := 6,
                radial_doc := [1], axial_doc := [1] }
    settings := { min_axial_doc := 0, max_axial_doc := 0, min_radial_doc := 0,
                  max_radial_doc := 0, max_feed_per_tooth := 0,
                  min_feed_per_tooth := 0, min_chip_cross_sectional_area := 0,
                  max_spindle_power := 0, max_cutting_force := 1 } }

/-- Witness for C1 at a concrete input. -/
theorem C1_witness :
    (∃ p ∈ ex1.gridPoints, ex1.validAt (fun x => x) 3 p) ∧
    (∃ n p, ex1.gridPoints[n]? = some p ∧
      ex1.best_idx (fun x => x) 3 = some p ∧
      ex1.compute_best (fun x => x) 3 = some (ex1.recipeAt p.1 p.2.1 p.2.2) ∧
      ex1.validAt (fun x => x) 3 p ∧
      (∀ q ∈ ex1.gridPoints, ex1.validAt (fun x => x) 3 q →
        ex1.grid_mrr 3 q ≤ ex1.grid_mrr 3 p) ∧
      (∀ (m : ℕ) (q : ℕ × ℕ × ℕ), m < n → ex1.gridPoints[m]? = some q →
        ex1.validAt (fun x => x) 3 q → ex1.grid_mrr 3 q < ex1.grid_mrr 3 p)) := by
  have hfeas : ∃ p ∈ ex1.gridPoints, ex1.validAt (fun x => x) 3 p := by
    refine ⟨(0, 0, 0), ?_, ?_⟩
    · simp [ex1, Optimizer.gridPoints, gridIdx]
    · show ex1.cutting_force_at (fun x => x) 3 (0, 0, 0) ≤
        ex1.settings.max_cutting_force
      norm_num [ex1, Optimizer.cutting_force_at, Optimizer.grid_engaged_flutes,
        Optimizer.grid_chip_area]
  exact ⟨hfeas, C1_constrained_argmax (fun x => x) 3 ex1 hfeas⟩

/-! ### Claim C2 -/

/-- Claim C2, settled against the code: when every grid candidate violates
the force constraint the search does NOT produce a distinguished
infeasible outcome.  `np.argmax` of the fully masked score array is 0, so
`compute_best` returns the ordinary reconstructed recipe at grid index
(0,0,0). -/
theorem C2_all_masked_returns_index_zero (asin : α → α) (pi : α)
    (o : Optimizer α)
    (hA : 0 < o.recipe.axial_doc.length) (hR : 0 < o.recipe.radial_doc.length)
    (hF : 0 < o.recipe.feed_per_tooth.length)
    (hall : ∀ p ∈ o.gridPoints, ¬ o.validAt asin pi p) :
    o.compute_best asin pi = some (o.recipeAt 0 0 0) := by
  rw [Optimizer.compute_best, best_idx_all_masked asin pi o hA hR hF hall]
  rfl

/-- Concrete optimizer for the C2 witness: the single candidate's force is
1 while the limit is -1, so the whole grid is masked out. -/
def ex2 : Optimizer ℚ :=
  { material := { ultimate_tensile_strength := 6 }
    recipe := { tool := { tool_diameter := 2, number_of_flutes := 1,
                          tool_wear_factor := 1, machine_efficancy := 1 }
                feed_per_tooth := [1], surface_speed := 6,
                radial_doc := [1], axial_doc := [1] }
    settings := { min_axial_doc := 0, max_axial_doc := 0, min_radial_doc := 0,
                  max_radial_doc := 0, max_feed_per_tooth := 0,
                  min_feed_per_tooth := 0, min_chip_cross_sectional_area := 0,
                  max_spindle_power := 0, max_cutting_force := -1 } }

/-- Witness for C2 at a concrete input. -/
theorem C2_witness :
    0 < ex2.recipe.axial_doc.length ∧ 0 < ex2.recipe.radial_doc.length ∧
    0 < ex2.recipe.feed_per_tooth.length ∧
    (∀ p ∈ ex2.gridPoints, ¬ ex2.validAt (fun x => x) 3 p) ∧
    ex2.compute_best (fun x => x) 3 = some (ex2.recipeAt 0 0 0) := by
  have hall : ∀ p ∈ ex2.gridPoints, ¬ ex2.validAt (fun x => x) 3 p := by
    intro p hp
    have hp0 : p = (0, 0, 0) := by
      have := hp
      simp [ex2, Optimizer.gridPoints, gridIdx] at this
      exact this.symm
    subst hp0
    show ¬ (ex2.cutting_force_at (fun x => x) 3 (0, 0, 0) ≤
      ex2.settings.max_cutting_force)
    norm_num [ex2, Optimizer.cutting_force_at, Optimizer.grid_engaged_flutes,
      Optimizer.grid_chip_area]
  exact ⟨by simp [ex2], by simp [ex2], by simp [ex2], hall,
    C2_all_masked_returns_index_zero (fun x => x) 3 ex2 (by simp [ex2])
      (by simp [ex2]) (by simp [ex2]) hall⟩

/-! ### Claim C3 -/

/-- Claim C3: for each axis with min < max and the fixed resolution 100,
the generated axis has exactly 100 samples, all in the half-open interval
from min (inclusive) to max (exclusive), strictly increasing, consecutive
samples spaced by (max - min)/100. -/
theorem C3_axes [FloorRing α] (s : OptimizerSettings α)
    (hA : s.min_axial_doc < s.max_axial_doc)
    (hR : s.min_radial_doc < s.max_radial_doc)
    (hF : s.min_feed_per_tooth < s.max_feed_per_tooth) :
    (∃ L, s.axial_doc = some L ∧ axisSpec s.min_axial_doc s.max_axial_doc L) ∧
    (∃ L, s.radial_doc = some L ∧
      axisSpec s.min_radial_doc s.max_radial_doc L) ∧
    (∃ L, s.feed_per_tooth = some L ∧
      axisSpec s.min_feed_per_tooth s.max_feed_per_tooth L) :=
  ⟨arange_axisSpec hA, arange_axisSpec hR, arange_axisSpec hF⟩

/-- Concrete settings for the C3 witness. -/
def ex3 : OptimizerSettings ℚ :=
  { min_axial_doc := 0, max_axial_doc := 1, min_radial_doc := 0,
    max_radial_doc := 1, max_feed_per_tooth := 1, min_feed_per_tooth := 0,
    min_chip_cross_sectional_area := 0, max_spindle_power := 0,
    max_cutting_force := 0 }

/-- Witness for C3 at a concrete input. -/
theorem C3_witness :
    ex3.min_axial_doc < ex3.max_axial_doc ∧
    ex3.min_radial_doc < ex3.max_radial_doc ∧
    ex3.min_feed_per_tooth < ex3.max_feed_per_tooth ∧
    ((∃ L, ex3.axial_doc = some L ∧
        axisSpec ex3.min_axial_doc ex3.max_axial_doc L) ∧
      (∃ L, ex3.radial_doc = some L ∧
        axisSpec ex3.min_radial_doc ex3.max_radial_doc L) ∧
      (∃ L, ex3.feed_per_tooth = some L ∧
        axisSpec ex3.min_feed_per_tooth ex3.max_feed_per_tooth L)) := by
  have h1 : ex3.min_axial_doc < ex3.max_axial_doc := by norm_num [ex3]
  have h2 : ex3.min_radial_doc < ex3.max_radial_doc := by norm_num [ex3]
  have h3 : ex3.min_feed_per_tooth < ex3.max_feed_per_tooth := by
    norm_num [ex3]
  exact ⟨h1, h2, h3, C3_axes ex3 h1 h2 h3⟩

/-! ### Claim C4 -/

/-- Claim C4: for every recipe the derived quantities satisfy exactly the
stated formulas with pi = Real.pi (spindle speed, feed rate, material
removal rate in closed form, and chip cross-sectional area).  Array-shaped
recipes evaluate the same formulas element-wise; see the grid element
definitions and C5. -/
theorem C4_formulas (r : Recipe ℝ) :
    r.rpm Real.pi = 1000 * r.surface_speed / (Real.pi * r.tool.tool_diameter) ∧
    r.feed_rate Real.pi = r.feed_per_tooth *
      (1000 * r.surface_speed / (Real.pi * r.tool.tool_diameter)) *
      (r.tool.number_of_flutes : ℝ) ∧
    r.mrr Real.pi = r.feed_per_tooth *
      (1000 * r.surface_speed / (Real.pi * r.tool.tool_diameter)) *
      (r.tool.number_of_flutes : ℝ) * r.axial_doc * r.radial_doc / 1000 ∧
    r.chip_cross_sectional_area = r.axial_doc * r.feed_per_tooth :=
  ⟨rfl, rfl, rfl, rfl⟩

/-! ### Claim C5 -/

/-- Claim C5: the recipe reconstructed from the winning grid index has
derived quantities (spindle speed, feed rate, removal rate, chip area,
engaged flutes, cutting force) exactly equal to the array-evaluated
quantities at that index of the swept grid. -/
theorem C5_roundtrip (asin : α → α) (pi : α) (o : Optimizer α)
    (p : ℕ × ℕ × ℕ) (h : o.best_idx asin pi = some p) :
    o.compute_best asin pi = some (o.recipeAt p.1 p.2.1 p.2.2) ∧
    (o.recipeAt p.1 p.2.1 p.2.2).rpm pi = o.grid_rpm pi ∧
    (o.recipeAt p.1 p.2.1 p.2.2).feed_rate pi = o.grid_feed_rate pi p.2.2 ∧
    (o.recipeAt p.1 p.2.1 p.2.2).mrr pi = o.grid_mrr pi p ∧
    (o.recipeAt p.1 p.2.1 p.2.2).chip_cross_sectional_area =
      o.grid_chip_area p ∧
    avg_engaged_flutes asin pi (o.recipe.tool.number_of_flutes : α)
      o.recipe.tool.tool_diameter (o.recipeAt p.1 p.2.1 p.2.2).radial_doc =
      o.grid_engaged_flutes asin pi p.2.1 ∧
    o.material.ultimate_tensile_strength *
      avg_engaged_flutes asin pi (o.recipe.tool.number_of_flutes : α)
        o.recipe.tool.tool_diameter (o.recipeAt p.1 p.2.1 p.2.2).radial_doc *
      o.recipe.tool.tool_wear_factor *
      (o.recipeAt p.1 p.2.1 p.2.2).chip_cross_sectional_area =
      o.cutting_force_at asin pi p := by
  refine ⟨?_, rfl, rfl, rfl, rfl, rfl, rfl⟩
  rw [Optimizer.compute_best, h]
  rfl

/-- Concrete optimizer for the C5 witness. -/
def ex5 : Optimizer ℚ :=
  { material := { ultimate_tensile_strength := 6 }
    recipe := { tool := { tool_diameter := 2, number_of_flutes := 1,
                          tool_wear_factor := 1, machine_efficancy := 1 }
                feed_per_tooth := [1], surface_speed := 6,
                radial_doc := [1], axial_doc := [1] }
    settings := { min_axial_doc := 0, max_axial_doc := 0, min_radial_doc := 0,
                  max_radial_doc := 0, max_feed_per_tooth := 0,
                  min_feed_per_tooth := 0, min_chip_cross_sectional_area := 0,
                  max_spindle_power := 0, max_cutting_force := 1 } }

/-- Witness for C5 at a concrete input. -/
theorem C5_witness :
    ex5.best_idx (fun x => x) 3 = some (0, 0, 0) ∧
    (ex5.compute_best (fun x => x) 3 = some (ex5.recipeAt 0 0 0) ∧
      (ex5.recipeAt 0 0 0).rpm 3 = ex5.grid_rpm 3 ∧
      (ex5.recipeAt 0 0 0).feed_rate 3 = ex5.grid_feed_rate 3 0 ∧
      (ex5.recipeAt 0 0 0).mrr 3 = ex5.grid_mrr 3 (0, 0, 0) ∧
      (ex5.recipeAt 0 0 0).chip_cross_sectional_area =
        ex5.grid_chip_area (0, 0, 0) ∧
      avg_engaged_flutes (fun x => x) 3 (ex5.recipe.tool.number_of_flutes : ℚ)
        ex5.recipe.tool.tool_diameter (ex5.recipeAt 0 0 0).radial_doc =
        ex5.grid_engaged_flutes (fun x => x) 3 0 ∧
      ex5.material.ultimate_tensile_strength *
        avg_engaged_flutes (fun x => x) 3
          (ex5.recipe.tool.number_of_flutes : ℚ)
          ex5.recipe.tool.tool_diameter (ex5.recipeAt 0 0 0).radial_doc *
        ex5.recipe.tool.tool_wear_factor *
        (ex5.recipeAt 0 0 0).chip_cross_sectional_area =
        ex5.cutting_force_at (fun x => x) 3 (0, 0, 0)) := by
  have hb : ex5.best_idx (fun x => x) 3 = some (0, 0, 0) := by
    obtain ⟨p, hb, hmem⟩ := best_idx_mem (fun x => x) 3 ex5 (by simp [ex5])
      (by simp [ex5]) (by simp [ex5])
    have hp : (0, 0, 0) = p := by
      simpa [ex5, Optimizer.gridPoints, gridIdx] using hmem
    rw [hb, ← hp]
  exact ⟨hb, C5_roundtrip (fun x => x) 3 ex5 (0, 0, 0) hb⟩

/-! ### Claim C6 -/

/-- Claim C6, settled against the code: with min_axial_doc equal to
max_axial_doc the axis step is zero, so `np.arange` raises
`ZeroDivisionError` (modelled `none`): the axis is not an empty list of
samples, and the script crashes while building the swept recipe instead
of reporting an infeasible search. -/
theorem C6_degenerate_crash [FloorRing α] (s : OptimizerSettings α)
    (m : Material α) (t : Tool α) (ss : α)
    (h : s.min_axial_doc = s.max_axial_doc) :
    s.axial_doc = none ∧ buildOptimizer m t ss s = none := by
  have hax : s.axial_doc = none := by
    rw [OptimizerSettings.axial_doc, h]
    simp [arange]
  refine ⟨hax, ?_⟩
  cases hr : s.radial_doc <;> cases hf : s.feed_per_tooth <;>
    simp [buildOptimizer, hax, hr, hf]

/-- Concrete settings for the C6 witness: degenerate axial bounds. -/
def ex6 : OptimizerSettings ℚ :=
  { min_axial_doc := 1, max_axial_doc := 1, min_radial_doc := 0,
    max_radial_doc := 1, max_feed_per_tooth := 1, min_feed_per_tooth := 0,
    min_chip_cross_sectional_area := 0, max_spindle_power := 0,
    max_cutting_force := 17 }

/-- Concrete material for the C6 witness. -/
def exM6 : Material ℚ := { ultimate_tensile_strength := 210 }

/-- Concrete tool for the C6 witness. -/
def exT6 : Tool ℚ :=
  { tool_diameter := 6, number_of_flutes := 3, tool_wear_factor := 1,
    machine_efficancy := 1 }

/-- Witness for C6 at a concrete input. -/
theorem C6_witness :
    ex6.min_axial_doc = ex6.max_axial_doc ∧
    (ex6.axial_doc = none ∧ buildOptimizer exM6 exT6 300 ex6 = none) :=
  ⟨rfl, C6_degenerate_crash ex6 exM6 exT6 300 rfl⟩

/-! ### Claim C7 -/

/-- Claim C7, settled against the code: for a radial depth of cut outside
the closed interval from 0 to the tool diameter, the argument handed to
`np.arcsin` by `avg_engaged_flutes` lies outside the closed interval from
-1 to 1, and the computation silently produces NaN (modelled `none`)
rather than failing with a domain error naming the candidate and
formula. -/
theorem C7_nan_propagation (asin : α → α) (pi flutes dia rdoc : α)
    (hdia : 0 < dia) (h : rdoc < 0 ∨ dia < rdoc) :
    avg_engaged_flutes_nan asin pi flutes dia rdoc = none := by
  have harg : ¬ (-1 ≤ (2 * rdoc - dia) / dia ∧ (2 * rdoc - dia) / dia ≤ 1) := by
    rcases h with h | h
    · rintro ⟨h1, -⟩
      rw [le_div_iff₀ hdia] at h1
      nlinarith
    · rintro ⟨-, h2⟩
      rw [div_le_iff₀ hdia] at h2
      nlinarith
  have h1 : (-1 : α) ≤ 1 ∧ (1 : α) ≤ 1 := by constructor <;> norm_num
  unfold avg_engaged_flutes_nan numpy_arcsin
  rw [if_neg harg, if_pos h1]

/-- Witness for C7 at a concrete input: tool diameter 2, radial depth 13. -/
theorem C7_witness :
    (0 : ℚ) < 2 ∧ ((13 : ℚ) < 0 ∨ (2 : ℚ) < 13) ∧
    avg_engaged_flutes_nan (fun x : ℚ => x) 3 1 2 13 = none :=
  ⟨by norm_num, Or.inr (by norm_num),
    C7_nan_propagation (fun x : ℚ => x) 3 1 2 13 (by norm_num)
      (Or.inr (by norm_num))⟩

/-! ### Claim C9 -/

/-- Claim C9: the search is pure.  Threading the optimizer state through
`compute_best` explicitly, the post-state is exactly the optimizer it was
called on (material, swept recipe and settings unchanged), and the result
is the same freshly constructed recipe `compute_best` returns, so two runs
on equal inputs yield equal results. -/
theorem C9_pure_frame (asin : α → α) (pi : α) (o : Optimizer α) :
    (o.compute_best_run asin pi).2.material = o.material ∧
    (o.compute_best_run asin pi).2.recipe = o.recipe ∧
    (o.compute_best_run asin pi).2.settings = o.settings ∧
    (o.compute_best_run asin pi).1 = o.compute_best asin pi := by
  have hrun : o.compute_best_run asin pi = (o.compute_best asin pi, o) := by
    rw [Optimizer.compute_best_run, Optimizer.score_run, Optimizer.compute_best,
      Optimizer.best_idx]
    by_cases hsc : (o.score asin pi).isEmpty <;> simp [hsc]
  rw [hrun]
  exact ⟨rfl, rfl, rfl, rfl⟩

/-! ### Claim C8 -/

/-- Claim C8 (amended): provided at least one candidate already satisfies
the tighter force limit F1 ≤ F2, the optimal material removal rate found
with limit F2 is at least the one found with limit F1. -/
theorem C8_amended_monotonicity (asin : α → α) (pi : α) (o : Optimizer α)
    (F1 F2 : α) (h12 : F1 ≤ F2)
    (hfeas : ∃ p ∈ o.gridPoints, o.cutting_force_at asin pi p ≤ F1) :
    ∃ p1 p2, (o.withForce F1).best_idx asin pi = some p1 ∧
      (o.withForce F2).best_idx asin pi = some p2 ∧
      o.grid_mrr pi p1 ≤ o.grid_mrr pi p2 := by
  obtain ⟨p0, hp0, hf0⟩ := hfeas
  have hfeas1 : ∃ p ∈ (o.withForce F1).gridPoints,
      (o.withForce F1).validAt asin pi p := ⟨p0, hp0, hf0⟩
  have hfeas2 : ∃ p ∈ (o.withForce F2).gridPoints,
      (o.withForce F2).validAt asin pi p := ⟨p0, hp0, le_trans hf0 h12⟩
  obtain ⟨n1, p1, hg1, hb1, hv1, hmax1, h5a⟩ := best_idx_spec asin pi _ hfeas1
  obtain ⟨n2, p2, hg2, hb2, hv2, hmax2, h5b⟩ := best_idx_spec asin pi _ hfeas2
  refine ⟨p1, p2, hb1, hb2, ?_⟩
  have hp1mem : p1 ∈ (o.withForce F2).gridPoints := List.getElem?_mem hg1
  have hp1valid2 : (o.withForce F2).validAt asin pi p1 := le_trans hv1 h12
  exact hmax2 p1 hp1mem hp1valid2

/-- Concrete optimizer for C8: two candidates, forces 2 and 1, removal
rates 2 and 1 (the force limit is substituted through `withForce`). -/
def ex8 : Optimizer ℚ :=
  { material := { ultimate_tensile_strength := 6 }
    recipe := { tool := { tool_diameter := 2, number_of_flutes := 1,
                          tool_wear_factor := 1, machine_efficancy := 1 }
                feed_per_tooth := [1], surface_speed := 6,
                radial_doc := [1], axial_doc := [2, 1] }
    settings := { min_axial_doc := 0, max_axial_doc := 0, min_radial_doc := 0,
                  max_radial_doc := 0, max_feed_per_tooth := 0,
                  min_feed_per_tooth := 0, min_chip_cross_sectional_area := 0,
                  max_spindle_power := 0, max_cutting_force := 0 } }

/-- Counterexample to C8 as stated: ex8 with force limit 1/2 has no valid
candidate; `compute_best` then returns the grid-index-0 recipe with
removal rate 2, while the relaxed limit 1 admits only the removal-rate-1
candidate.  Relaxing the constraint decreased the reported optimum. -/
theorem C8_counterexample :
    (1 : ℚ) / 2 ≤ 1 ∧
    ((ex8.withForce (1 / 2)).compute_best (fun x => x) 3).map
      (fun r => r.mrr 3) = some 2 ∧
    ((ex8.withForce 1).compute_best (fun x => x) 3).map
      (fun r => r.mrr 3) = some 1 ∧
    ¬ ((2 : ℚ) ≤ 1) := by
  have hf0 : ∀ F : ℚ,
      (ex8.withForce F).cutting_force_at (fun x => x) 3 (0, 0, 0) = 2 := by
    intro F
    show (6 : ℚ) * (((1 : ℕ) : ℚ) * ((2 * 1 - 2) / 2 + 1) / 2 / 3) * 1 *
      (2 * 1) = 2
    norm_num
  have hf1 : ∀ F : ℚ,
      (ex8.withForce F).cutting_force_at (fun x => x) 3 (1, 0, 0) = 1 := by
    intro F
    show (6 : ℚ) * (((1 : ℕ) : ℚ) * ((2 * 1 - 2) / 2 + 1) / 2 / 3) * 1 *
      (1 * 1) = 1
    norm_num
  have hgrid : (ex8.withForce (1 / 2)).gridPoints = [(0, 0, 0), (1, 0, 0)] := by
    decide
  have hall : ∀ p ∈ (ex8.withForce (1 / 2)).gridPoints,
      ¬ (ex8.withForce (1 / 2)).validAt (fun x => x) 3 p := by
    intro p hp
    rw [hgrid] at hp
    show ¬ ((ex8.withForce (1 / 2)).cutting_force_at (fun x => x) 3 p ≤ 1 / 2)
    rcases List.mem_cons.mp hp with rfl | hp
    · rw [hf0]
      norm_num
    rcases List.mem_cons.mp hp with rfl | hp
    · rw [hf1]
      norm_num
    · simp at hp
  have hrun1 : (ex8.withForce (1 / 2)).compute_best (fun x => x) 3 =
      some ((ex8.withForce (1 / 2)).recipeAt 0 0 0) := by
    rw [Optimizer.compute_best,
      best_idx_all_masked (fun x => x) 3 _ (by decide) (by decide) (by decide)
        hall]
    rfl
  have hfeas : ∃ p ∈ (ex8.withForce 1).gridPoints,
      (ex8.withForce 1).validAt (fun x => x) 3 p := by
    refine ⟨(1, 0, 0), by decide, ?_⟩
    show (ex8.withForce 1).cutting_force_at (fun x => x) 3 (1, 0, 0) ≤ 1
    rw [hf1]
  obtain ⟨n, p, hg, hb, hv, hmax, hfirst⟩ :=
    best_idx_spec (fun x => x) 3 _ hfeas
  have hp : p = (1, 0, 0) := by
    have hmem : p ∈ (ex8.withForce 1).gridPoints := List.getElem?_mem hg
    have hgrid1 : (ex8.withForce 1).gridPoints = [(0, 0, 0), (1, 0, 0)] := by
      decide
    rw [hgrid1] at hmem
    rcases List.mem_cons.mp hmem with rfl | hmem
    · exfalso
      have hv0 : (ex8.withForce 1).cutting_force_at (fun x => x) 3 (0, 0, 0)
          ≤ 1 := hv
      rw [hf0] at hv0
      norm_num at hv0
    rcases List.mem_cons.mp hmem with rfl | hmem
    · rfl
    · simp at hmem
  subst hp
  have hrun2 : (ex8.withForce 1).compute_best (fun x => x) 3 =
      some ((ex8.withForce 1).recipeAt 1 0 0) := by
    rw [Optimizer.compute_best, hb]
    rfl
  refine ⟨by norm_num, ?_, ?_, by norm_num⟩
  · rw [hrun1]
    show some (((ex8.withForce (1 / 2)).recipeAt 0 0 0).mrr 3) = some 2
    norm_num [Optimizer.recipeAt, Recipe.mrr, Recipe.feed_rate, Recipe.rpm, ex8,
      Optimizer.withForce, OptimizerSettings.withForce]
  · rw [hrun2]
    show some (((ex8.withForce 1).recipeAt 1 0 0).mrr 3) = some 1
    norm_num [Optimizer.recipeAt, Recipe.mrr, Recipe.feed_rate, Recipe.rpm, ex8,
      Optimizer.withForce, OptimizerSettings.withForce]

/-- Witness for the amended C8 at a concrete input. -/
theorem C8_witness :
    (1 : ℚ) ≤ 2 ∧
    (∃ p ∈ ex8.gridPoints, ex8.cutting_force_at (fun x => x) 3 p ≤ 1) ∧
    (∃ p1 p2, (ex8.withForce 1).best_idx (fun x => x) 3 = some p1 ∧
      (ex8.withForce 2).best_idx (fun x => x) 3 = some p2 ∧
      ex8.grid_mrr 3 p1 ≤ ex8.grid_mrr 3 p2) := by
  have hfeas : ∃ p ∈ ex8.gridPoints, ex8.cutting_force_at (fun x => x) 3 p ≤ 1 := by
    refine ⟨(1, 0, 0), by decide, ?_⟩
    show (6 : ℚ) * (((1 : ℕ) : ℚ) * (((2 * 1 - 2) / 2) + 1) / 2 / 3) * 1 *
      ((1 : ℚ) * 1) ≤ 1
    norm_num
  exact ⟨by norm_num, hfeas,
    C8_amended_monotonicity (fun x => x) 3 ex8 1 2 (by norm_num) hfeas⟩

/-! ### Claim C10 -/

theorem best_idx_const (asin : α → α) (pi : α) (o : Optimizer α) (c : α)
    (hA : 0 < o.recipe.axial_doc.length) (hR : 0 < o.recipe.radial_doc.length)
    (hF : 0 < o.recipe.feed_per_tooth.length)
    (hmrr : ∀ p ∈ o.gridPoints, o.grid_mrr pi p = c)
    (hvalid : ∀ p ∈ o.gridPoints, o.validAt asin pi p) :
    o.best_idx asin pi = some (0, 0, 0) := by
  have hnil : o.gridPoints ≠ [] := gridIdx_ne_nil hA hR hF
  have hmsk : (o.score asin pi).map (fun x => x.2) =
      o.gridPoints.map (fun _ => (c, false)) := by
    rw [score_map_snd]
    apply List.map_congr_left
    intro p hp
    rw [hmrr p hp, decide_eq_false (not_lt.mpr (hvalid p hp))]
  have hbest : bestMA ((o.score asin pi).map fun x => x.2) = some (0, c) := by
    rw [hmsk]
    exact bestMA_const c hnil
  have h0 : o.gridPoints[0]? = some (0, 0, 0) := by
    rw [Optimizer.gridPoints]
    exact gridIdx_getElem_zero hA hR hF
  rw [Optimizer.best_idx]
  simp only [score_isEmpty_false asin pi o hnil, Bool.false_eq_true, if_false]
  rw [argmaxMA, hbest, score_map_fst, List.getD_eq_getElem?_getD, h0]
  rfl

/-- Claim C10 (amended): whenever the settings build a non-empty grid
(each axis has min distinct from max; equal bounds crash axis generation,
see C6 -- and with distinct bounds every axis has exactly 100 samples, so
the grid is non-empty) the search returns a recipe whose scalar cut
parameters are elements of the generated axes, with the tool and surface
speed of the input candidate recipe; for each axis whose bounds satisfy
min < max, that parameter additionally lies in the half-open interval
from min (inclusive) to max (exclusive). -/
theorem C10_amended_membership [FloorRing α] (asin : α → α) (pi : α)
    (m : Material α) (t : Tool α) (ss : α) (s : OptimizerSettings α)
    (hA : s.min_axial_doc ≠ s.max_axial_doc)
    (hR : s.min_radial_doc ≠ s.max_radial_doc)
    (hF : s.min_feed_per_tooth ≠ s.max_feed_per_tooth) :
    ∃ o r, buildOptimizer m t ss s = some o ∧
      o.compute_best asin pi = some r ∧
      r.axial_doc ∈ o.recipe.axial_doc ∧
      r.radial_doc ∈ o.recipe.radial_doc ∧
      r.feed_per_tooth ∈ o.recipe.feed_per_tooth ∧
      (s.min_axial_doc < s.max_axial_doc →
        s.min_axial_doc ≤ r.axial_doc ∧ r.axial_doc < s.max_axial_doc) ∧
      (s.min_radial_doc < s.max_radial_doc →
        s.min_radial_doc ≤ r.radial_doc ∧ r.radial_doc < s.max_radial_doc) ∧
      (s.min_feed_per_tooth < s.max_feed_per_tooth →
        s.min_feed_per_tooth ≤ r.feed_per_tooth ∧
        r.feed_per_tooth < s.max_feed_per_tooth) ∧
      r.tool = t ∧ r.surface_speed = ss := by
  have haxial : s.axial_doc = some ((List.range 100).map
      (fun i : ℕ => s.min_axial_doc + (i : α) *
        ((s.max_axial_doc - s.min_axial_doc) / 100))) :=
    arange_div100 (Ne.symm hA)
  have hradial : s.radial_doc = some ((List.range 100).map
      (fun i : ℕ => s.min_radial_doc + (i : α) *
        ((s.max_radial_doc - s.min_radial_doc) / 100))) :=
    arange_div100 (Ne.symm hR)
  have hfeed : s.feed_per_tooth = some ((List.range 100).map
      (fun i : ℕ => s.min_feed_per_tooth + (i : α) *
        ((s.max_feed_per_tooth - s.min_feed_per_tooth) / 100))) :=
    arange_div100 (Ne.symm hF)
  set LA : List α := (List.range 100).map
    (fun i : ℕ => s.min_axial_doc + (i : α) *
      ((s.max_axial_doc - s.min_axial_doc) / 100)) with hLAdef
  set LR : List α := (List.range 100).map
    (fun i : ℕ => s.min_radial_doc + (i : α) *
      ((s.max_radial_doc - s.min_radial_doc) / 100)) with hLRdef
  set LF : List α := (List.range 100).map
    (fun i : ℕ => s.min_feed_per_tooth + (i : α) *
      ((s.max_feed_per_tooth - s.min_feed_per_tooth) / 100)) with hLFdef
  refine ⟨{ material := m
            recipe := { tool := t, feed_per_tooth := LF, surface_speed := ss,
                        radial_doc := LR, axial_doc := LA }
            settings := s }, ?_⟩
  set o : Optimizer α :=
    { material := m
      recipe := { tool := t, feed_per_tooth := LF, surface_speed := ss,
                  radial_doc := LR, axial_doc := LA }
      settings := s } with ho
  have hbuild : buildOptimizer m t ss s = some o := by
    unfold buildOptimizer
    rw [haxial, hradial, hfeed]
  have hlA : 0 < LA.length := by rw [hLAdef]; simp
  have hlR : 0 < LR.length := by rw [hLRdef]; simp
  have hlF : 0 < LF.length := by rw [hLFdef]; simp
  obtain ⟨p, hb, hmem⟩ := best_idx_mem asin pi o hlA hlR hlF
  have hcomp : o.compute_best asin pi = some (o.recipeAt p.1 p.2.1 p.2.2) := by
    rw [Optimizer.compute_best, hb]
    rfl
  rw [Optimizer.gridPoints] at hmem
  obtain ⟨hpA, hpR, hpF⟩ := mem_gridIdx.mp hmem
  have hgA : LA.getD p.1 0 = LA.get ⟨p.1, hpA⟩ := by
    rw [List.getD_eq_getElem?_getD, List.getElem?_eq_getElem hpA]
    rfl
  have hgR : LR.getD p.2.1 0 = LR.get ⟨p.2.1, hpR⟩ := by
    rw [List.getD_eq_getElem?_getD, List.getElem?_eq_getElem hpR]
    rfl
  have hgF : LF.getD p.2.2 0 = LF.get ⟨p.2.2, hpF⟩ := by
    rw [List.getD_eq_getElem?_getD, List.getElem?_eq_getElem hpF]
    rfl
  refine ⟨o.recipeAt p.1 p.2.1 p.2.2, hbuild, hcomp, ?_, ?_, ?_, ?_, ?_, ?_,
    rfl, rfl⟩
  · show LA.getD p.1 0 ∈ LA
    rw [hgA]
    exact LA.get_mem _ hpA
  · show LR.getD p.2.1 0 ∈ LR
    rw [hgR]
    exact LR.get_mem _ hpR
  · show LF.getD p.2.2 0 ∈ LF
    rw [hgF]
    exact LF.get_mem _ hpF
  · intro hlt
    obtain ⟨Lx, hLx, hspec⟩ := arange_axisSpec hlt
    have hLL : Lx = LA := Option.some.inj (hLx.symm.trans haxial)
    subst hLL
    constructor
    · show s.min_axial_doc ≤ LA.getD p.1 0
      rw [hgA]
      exact (hspec.2.1 p.1 hpA).1
    · show LA.getD p.1 0 < s.max_axial_doc
      rw [hgA]
      exact (hspec.2.1 p.1 hpA).2
  · intro hlt
    obtain ⟨Lx, hLx, hspec⟩ := arange_axisSpec hlt
    have hLL : Lx = LR := Option.some.inj (hLx.symm.trans hradial)
    subst hLL
    constructor
    · show s.min_radial_doc ≤ LR.getD p.2.1 0
      rw [hgR]
      exact (hspec.2.1 p.2.1 hpR).1
    · show LR.getD p.2.1 0 < s.max_radial_doc
      rw [hgR]
      exact (hspec.2.1 p.2.1 hpR).2
  · intro hlt
    obtain ⟨Lx, hLx, hspec⟩ := arange_axisSpec hlt
    have hLL : Lx = LF := Option.some.inj (hLx.symm.trans hfeed)
    subst hLL
    constructor
    · show s.min_feed_per_tooth ≤ LF.getD p.2.2 0
      rw [hgF]
      exact (hspec.2.1 p.2.2 hpF).1
    · show LF.getD p.2.2 0 < s.max_feed_per_tooth
      rw [hgF]
      exact (hspec.2.1 p.2.2 hpF).2

/-- Concrete settings for the C10 counterexample: the axial bounds are
inverted (min 2 > max 1), surface speed and tensile strength are 0 so
every candidate has removal rate 0 and force 0. -/
def exS10 : OptimizerSettings ℚ :=
  { min_axial_doc := 2, max_axial_doc := 1, min_radial_doc := 0,
    max_radial_doc := 1, max_feed_per_tooth := 1, min_feed_per_tooth := 0,
    min_chip_cross_sectional_area := 0, max_spindle_power := 0,
    max_cutting_force := 1 }

/-- Concrete material for the C10 counterexample. -/
def exM10 : Material ℚ := { ultimate_tensile_strength := 0 }

/-- Concrete tool for the C10 counterexample. -/
def exT10 : Tool ℚ :=
  { tool_diameter := 2, number_of_flutes := 1, tool_wear_factor := 1,
    machine_efficancy := 1 }

/-- Counterexample to C10 as stated: with inverted axial bounds
(min 2 > max 1) `np.arange` produces 100 decreasing samples, the grid is
non-empty, the search returns a concrete recipe with axial depth 2, and 2
does not lie in the half-open interval from min 2 to max 1, which is
empty. -/
theorem C10_counterexample :
    ((buildOptimizer exM10 exT10 0 exS10).bind
      (fun o => o.compute_best (fun x => x) 3)).map (fun r => r.axial_doc) =
      some 2 ∧
    ¬ (exS10.min_axial_doc ≤ (2 : ℚ) ∧ (2 : ℚ) < exS10.max_axial_doc) := by
  constructor
  · have haxial : exS10.axial_doc = some ((List.range 100).map
        (fun i : ℕ => 2 + (i : ℚ) * ((1 - 2) / 100))) := by
      have : ((1 : ℚ)) ≠ 2 := by norm_num
      exact arange_div100 this
    obtain ⟨LR, hLR, hspecR⟩ := arange_axisSpec
      (show exS10.min_radial_doc < exS10.max_radial_doc by norm_num [exS10])
    obtain ⟨LF, hLF, hspecF⟩ := arange_axisSpec
      (show exS10.min_feed_per_tooth < exS10.max_feed_per_tooth by
        norm_num [exS10])
    set LA : List ℚ := (List.range 100).map
      (fun i : ℕ => 2 + (i : ℚ) * ((1 - 2) / 100)) with hLAdef
    set o : Optimizer ℚ :=
      { material := exM10
        recipe := { tool := exT10, feed_per_tooth := LF, surface_speed := 0,
                    radial_doc := LR, axial_doc := LA }
        settings := exS10 } with ho
    have hradial : exS10.radial_doc = some LR := hLR
    have hfeed : exS10.feed_per_tooth = some LF := hLF
    have hbuild : buildOptimizer exM10 exT10 0 exS10 = some o := by
      unfold buildOptimizer
      rw [haxial, hradial, hfeed]
    have hlA : 0 < LA.length := by simp [hLAdef]
    have hlR : 0 < LR.length := by rw [hspecR.1]; norm_num
    have hlF : 0 < LF.length := by rw [hspecF.1]; norm_num
    have hmrr : ∀ p ∈ o.gridPoints, o.grid_mrr 3 p = 0 := by
      intro p hp
      show o.grid_feed_rate 3 p.2.2 * _ * _ / 1000 = 0
      rw [Optimizer.grid_feed_rate, Optimizer.grid_rpm]
      show LF.getD p.2.2 0 * (1000 * 0 / (3 * 2)) * _ * _ * _ / 1000 = 0
      norm_num
    have hvalid : ∀ p ∈ o.gridPoints, o.validAt (fun x => x) 3 p := by
      intro p hp
      show o.cutting_force_at (fun x => x) 3 p ≤ 1
      rw [Optimizer.cutting_force_at]
      show (0 : ℚ) * _ * _ * _ ≤ 1
      norm_num
    have hb := best_idx_const (fun x => x) 3 o 0 hlA hlR hlF hmrr hvalid
    have hcomp : o.compute_best (fun x => x) 3 = some (o.recipeAt 0 0 0) := by
      rw [Optimizer.compute_best, hb]
      rfl
    rw [hbuild]
    show (o.compute_best (fun x => x) 3).map (fun r => r.axial_doc) = some 2
    rw [hcomp]
    show some (LA.getD 0 0) = some 2
    rw [hLAdef, List.getD_eq_getElem?_getD, List.getElem?_map]
    norm_num [List.getElem?_range]
  · norm_num [exS10]

/-- Concrete settings for the C10 witness (all bounds in order). -/
def exS10w : OptimizerSettings ℚ :=
  { min_axial_doc := 0, max_axial_doc := 1, min_radial_doc := 0,
    max_radial_doc := 1, max_feed_per_tooth := 1, min_feed_per_tooth := 0,
    min_chip_cross_sectional_area := 0, max_spindle_power := 0,
    max_cutting_force := 1 }

/-- Witness for the amended C10 at a concrete input. -/
theorem C10_witness :
    exS10w.min_axial_doc ≠ exS10w.max_axial_doc ∧
    exS10w.min_radial_doc ≠ exS10w.max_radial_doc ∧
    exS10w.min_feed_per_tooth ≠ exS10w.max_feed_per_tooth ∧
    (∃ o r, buildOptimizer exM10 exT10 5 exS10w = some o ∧
      o.compute_best (fun x => x) 3 = some r ∧
      r.axial_doc ∈ o.recipe.axial_doc ∧
      r.radial_doc ∈ o.recipe.radial_doc ∧
      r.feed_per_tooth ∈ o.recipe.feed_per_tooth ∧
      (exS10w.min_axial_doc < exS10w.max_axial_doc →
        exS10w.min_axial_doc ≤ r.axial_doc ∧
        r.axial_doc < exS10w.max_axial_doc) ∧
      (exS10w.min_radial_doc < exS10w.max_radial_doc →
        exS10w.min_radial_doc ≤ r.radial_doc ∧
        r.radial_doc < exS10w.max_radial_doc) ∧
      (exS10w.min_feed_per_tooth < exS10w.max_feed_per_tooth →
        exS10w.min_feed_per_tooth ≤ r.feed_per_tooth ∧
        r.feed_per_tooth < exS10w.max_feed_per_tooth) ∧
      r.tool = exT10 ∧ r.surface_speed = 5) := by
  have h1 : exS10w.min_axial_doc ≠ exS10w.max_axial_doc := by
    norm_num [exS10w]
  have h2 : exS10w.min_radial_doc ≠ exS10w.max_radial_doc := by
    norm_num [exS10w]
  have h3 : exS10w.min_feed_per_tooth ≠ exS10w.max_feed_per_tooth := by
    norm_num [exS10w]
  exact ⟨h1, h2, h3,
    C10_amended_membership (fun x => x) 3 exM10 exT10 5 exS10w h1 h2 h3⟩

end MachineOpt
